import Mathlib

/-!
Shallow embedding of the lettersmith_py static-site generator sources
(`lettersmith/doc.py`, `lettersmith/permalink.py`, `lettersmith/bin/site.py`)
and proofs about the behaviour the specification claims.

Conventions of the embedding:
* Python values that can raise are returned through `Except PyErr`.
* Python `datetime` values are modelled by `PyDate` (year/month/day; the
  claims under study only exercise dates).
* Python `dict`s and the filesystem are modelled by association lists;
  a later write shadows an earlier one, and lookups take the newest entry,
  which models in-place overwrite.
* `pathlib.PurePath` is modelled for POSIX path strings (the flavour the
  repository's content paths use), following CPython `pathlib`:
  parsing drops empty and `"."` components, a leading run of exactly two
  slashes is the root `"//"`, any other leading run of slashes is `"/"`,
  and an empty relative path prints as `"."`.
-/

namespace Lettersmith

/-- Python exceptions that the embedded code can raise.
`docException` is `doc.py`'s `DocException`, carrying its message and the
original exception as the chained cause (`raise ... from e`). -/
inductive PyErr where
  | keyError : PyErr
  | attributeError : PyErr
  | valueError : PyErr
  | fileNotFound : PyErr
  | yamlError : PyErr
  | jsonError : PyErr
  | docException : String → PyErr → PyErr
deriving DecidableEq, Repr

/-- Model of a Python `datetime` value, at the day granularity the claims
exercise. -/
structure PyDate where
  year : Nat
  month : Nat
  day : Nat
deriving DecidableEq, Repr

/-- `lettersmith.date.EPOCH`, the shared "unknown timestamp" default. -/
def EPOCH : PyDate := ⟨1970, 1, 1⟩

/-- A value stored in a doc's `meta` mapping: the claims under study only
exercise string values and date values. -/
inductive MVal where
  | mstr : String → MVal
  | mdate : PyDate → MVal
deriving DecidableEq, Repr

/-- Look up a key in an association list modelling a Python `dict`;
the newest (first) binding wins, modelling in-place overwrite. -/
def assocFind {α : Type} : List (String × α) → String → Option α
  | [], _ => none
  | (k, v) :: rest, key => if key = k then some v else assocFind rest key

/-- Overwrite (or add) a key in an association-list `dict`. -/
def assocSet {α : Type} : List (String × α) → String → α → List (String × α)
  | [], key, v => [(key, v)]
  | (k, w) :: rest, key, v =>
    if key = k then (k, v) :: rest else (k, w) :: assocSet rest key v

/-- The `Doc` namedtuple of `doc.py` (lines 20–23).  Its fields are exactly
`id_path, output_path, input_path, created, modified, title, content,
section, meta, templates` — in particular there is no `date` field.
(`section` is a Lean keyword, so the field is spelled `section_` here.) -/
structure Doc where
  id_path : String
  output_path : String
  input_path : Option String
  created : PyDate
  modified : PyDate
  title : String
  content : String
  section_ : String
  meta : List (String × MVal)
  templates : List String
deriving DecidableEq, Repr

/-- Modelled from the spec: the `Stub` record (`lettersmith/stub.py` is not
among the available sources).  Per spec §3 and §4.6 a Stub is "a projection
of Doc carrying every field except `content`", so it carries `id_path`,
`output_path`, `input_path`, `created`, `modified`, `title`, `section`,
`meta` and `templates`. -/
structure Stub where
  id_path : String
  output_path : String
  input_path : Option String
  created : PyDate
  modified : PyDate
  title : String
  section_ : String
  meta : List (String × MVal)
  templates : List String
deriving DecidableEq, Repr

/-! ### `pathlib.PurePath` model (POSIX flavour)

CPython `pathlib` parses a path string into a root and a list of parts,
dropping empty components and `"."` components; `str()` re-joins them with
`"/"` and prints `"."` for an empty relative path. -/

/-- Split a character list on `'/'` (like `str.split('/')`). -/
def splitSlash : List Char → List (List Char)
  | [] => [[]]
  | c :: rest =>
    let r := splitSlash rest
    if c = '/' then [] :: r
    else
      match r with
      | [] => [[c]]
      | h :: t => (c :: h) :: t

/-- Number of leading `'/'` characters. -/
def leadSlashes : List Char → Nat
  | [] => 0
  | c :: rest => if c = '/' then leadSlashes rest + 1 else 0

/-- The root of a POSIX path: per CPython's `_PosixFlavour.splitroot`,
exactly two leading slashes give the root `"//"`, any other positive
number of leading slashes gives `"/"`. -/
def pathRootC (cs : List Char) : List Char :=
  let k := leadSlashes cs
  if k = 0 then [] else if k = 2 then ['/', '/'] else ['/']

/-- The parsed parts of a path: slash-separated components with empty and
`"."` components dropped (CPython `_Flavour.parse_parts`).  `".."` is kept. -/
def pathPartsC (cs : List Char) : List (List Char) :=
  (splitSlash cs).filter (fun p => decide (p ≠ [] ∧ p ≠ ['.']))

/-- Join parsed parts back with `"/"`. -/
def joinPartsC : List (List Char) → List Char
  | [] => []
  | [x] => x
  | x :: y :: t => x ++ '/' :: joinPartsC (y :: t)

/-- `str(PurePath(s))` on character lists. -/
def purePathStrC (cs : List Char) : List Char :=
  let r := pathRootC cs
  let ps := pathPartsC cs
  if r = [] ∧ ps = [] then ['.'] else r ++ joinPartsC ps

/-- `str(PurePath(s))`. -/
def purePathStr (s : String) : String := ⟨purePathStrC s.data⟩

/-- Last element of a list of parts, or `[]` when there are none. -/
def lastPart : List (List Char) → List Char
  | [] => []
  | [x] => x
  | _ :: y :: t => lastPart (y :: t)

/-- `PurePath(s).name`: the final path component, `""` when there is none. -/
def pathNameC (cs : List Char) : List Char := lastPart (pathPartsC cs)

/-- Split a name at its last `'.'`: returns `(before, from-the-dot-on)`
for the rightmost dot, or `none` when the name holds no dot
(the recursion prefers a dot found further right, matching `str.rfind`). -/
def lastDotSplit : List Char → Option (List Char × List Char)
  | [] => none
  | c :: rest =>
    match lastDotSplit rest with
    | some (pre, suf) => some (c :: pre, suf)
    | none => if c = '.' then some ([], c :: rest) else none

/-- `PurePath.suffix` of a name `n`: with `i = n.rfind('.')`, the suffix is
`n[i:]` when `0 < i < len(n) - 1` and `""` otherwise.  In terms of
`lastDotSplit n = some (pre, suf)` that condition is
`pre ≠ [] ∧ 2 ≤ suf.length`. -/
def nameSuffixC (n : List Char) : List Char :=
  match lastDotSplit n with
  | some (pre, suf) => if pre ≠ [] ∧ 2 ≤ suf.length then suf else []
  | none => []

/-- The part of a name before its suffix (`PurePath.stem` of the name);
the whole name when it has no suffix. -/
def nameStemC (n : List Char) : List Char :=
  match lastDotSplit n with
  | some (pre, suf) => if pre ≠ [] ∧ 2 ≤ suf.length then pre else n
  | none => n

/-- `PurePath(s).stem`. -/
def pathStemC (cs : List Char) : List Char := nameStemC (pathNameC cs)

/-- `str(PurePath(s).parent)`: drop the final part; an empty relative
parent prints as `"."`, an empty absolute parent is the root itself. -/
def pathParentStrC (cs : List Char) : List Char :=
  let r := pathRootC cs
  let ps := (pathPartsC cs).dropLast
  if r = [] ∧ ps = [] then ['.'] else r ++ joinPartsC ps

/-- `PurePath(a, b)` as used in `doc.py` (`b` a relative file name):
join with a separator and normalize; an empty `a` or an absolute `b`
degenerates to `b` alone. -/
def pyPathJoin (a b : String) : String :=
  if a = "" ∨ leadSlashes b.data ≠ 0 then purePathStr b
  else ⟨purePathStrC (a.data ++ '/' :: b.data)⟩

/-- `PurePath.with_suffix(ext)` (CPython): raise `ValueError` when `ext`
holds a separator, when `ext` is non-empty but does not start with a dot,
when `ext` is exactly `"."`, or when the path has an empty name; otherwise
replace (or append, for a suffix-less name) the final component's suffix
and rebuild the path. -/
def withSuffixC (p ext : List Char) : Except PyErr (List Char) :=
  if '/' ∈ ext then .error .valueError
  else if (ext ≠ [] ∧ ¬ext.head? = some '.') ∨ ext = ['.'] then .error .valueError
  else
    let n := pathNameC p
    if n = [] then .error .valueError
    else
      let old := nameSuffixC n
      let n2 := if old = [] then n ++ ext else nameStemC n ++ ext
      .ok (pathRootC p ++ joinPartsC ((pathPartsC p).dropLast ++ [n2]))

/-! ### `lettersmith/permalink.py` -/

/-- Decimal rendering of `n` left-padded with zeros to width `w`
(`strftime`'s zero-padded numeric fields). -/
def padNum (w n : Nat) : String :=
  let s := toString n
  ⟨List.replicate (w - s.length) '0' ++ s.data⟩

/-- `strftime("%Y")`: zero-padded four-digit year. -/
def fmtYYYY (d : PyDate) : String := padNum 4 d.year

/-- `strftime("%y")`: zero-padded two-digit year. -/
def fmtYY (d : PyDate) : String := padNum 2 (d.year % 100)

/-- `strftime("%m")`: zero-padded month. -/
def fmtMM (d : PyDate) : String := padNum 2 d.month

/-- `strftime("%d")`: zero-padded day. -/
def fmtDD (d : PyDate) : String := padNum 2 d.day

/-- Python attribute access `doc.date`.  The `Doc` namedtuple of `doc.py`
(lines 20–23) has exactly the ten fields `id_path, output_path, input_path,
created, modified, title, content, section, meta, templates`; namedtuples
have empty `__slots__`, so accessing the absent attribute `date` raises
`AttributeError` on every `Doc`.  This access is what `read_doc_permalink`
(permalink.py line 16) performs. -/
def docDateAttr (_d : Doc) : Option PyDate := none

/-- The opening brace character of a `str.format` placeholder. -/
def braceL : Char := Char.ofNat 123

/-- The closing brace character of a `str.format` placeholder. -/
def braceR : Char := Char.ofNat 125

/-- Core of `str.format(**vals)` restricted to plain `(name)` placeholders
delimited by braces, which is the only form the repository's permalink
templates use: literal text is copied, a placeholder is replaced by its
binding in `vals`, and a placeholder name absent from `vals` raises
`KeyError`.  The second argument accumulates the characters of a
placeholder name currently being read (in reverse), `none` outside a
placeholder. -/
def fmtGo (vals : List (String × String)) :
    List Char → Option (List Char) → Except PyErr (List Char)
  | [], some _ => .error .valueError
  | [], none => .ok []
  | c :: rest, some acc =>
    if c = braceR then
      match assocFind vals ⟨acc.reverse⟩ with
      | some v => (fmtGo vals rest none).map (fun t => v.data ++ t)
      | none => .error .keyError
    else fmtGo vals rest (some (c :: acc))
  | c :: rest, none =>
    if c = braceL then fmtGo vals rest (some [])
    else (fmtGo vals rest none).map (fun t => c :: t)

/-- `template.format(**vals)` for the permalink templates. -/
def formatTemplate (t : String) (vals : List (String × String)) :
    Except PyErr String :=
  (fmtGo vals t.data none).map (fun l => ⟨l⟩)

/-- A brace-delimited placeholder for building template strings. -/
def tok (name : String) : String :=
  ⟨braceL :: name.data ++ [braceR]⟩

/-- `read_doc_permalink(doc)` (permalink.py lines 4–20): builds the flat
token dictionary for template substitution.  The dict literal's values are
evaluated in order; the seventh entry evaluates `doc.date.strftime("%y")`,
and since `Doc` has no `date` field the attribute access raises
`AttributeError` before the dictionary is produced. -/
def read_doc_permalink (d : Doc) : Except PyErr (List (String × String)) :=
  let idp := d.id_path.data
  let nm := pathNameC idp
  match docDateAttr d with
  | none => .error .attributeError
  | some date =>
    .ok [("section", d.section_),
         ("name", ⟨nm⟩),
         ("stem", ⟨pathStemC idp⟩),
         ("suffix", ⟨nameSuffixC nm⟩),
         ("parents", ⟨pathParentStrC idp⟩),
         ("parent", ⟨nameStemC (pathNameC (pathParentStrC idp))⟩),
         ("yy", fmtYY date),
         ("yyyy", fmtYYYY date),
         ("mm", fmtMM date),
         ("dd", fmtDD date)]

/-- Python `permalink_templates[doc.section]`: dict indexing, raising
`KeyError` when the key is absent. -/
def dictIndex (m : List (String × String)) (k : String) : Except PyErr String :=
  match assocFind m k with
  | some v => .ok v
  | none => .error .keyError

/-- `map_doc_permalink(doc, permalink_templates)` (permalink.py lines
23–38): inside `try`, look the section up in `permalink_templates`, format
the template with `read_doc_permalink`'s tokens, normalize through
`PurePath` and replace `output_path`; `except KeyError` returns the doc
unchanged; any other exception propagates. -/
def map_doc_permalink (d : Doc) (permalink_templates : List (String × String)) :
    Except PyErr Doc :=
  let body : Except PyErr Doc :=
    match dictIndex permalink_templates d.section_ with
    | .error e => .error e
    | .ok path_template =>
      match read_doc_permalink d with
      | .error e => .error e
      | .ok tokens =>
        match formatTemplate path_template tokens with
        | .error e => .error e
        | .ok out => .ok { d with output_path := purePathStr out }
  match body with
  | .error .keyError => .ok d
  | r => r

/-! ### `lettersmith/doc.py` -/

/-- Split a character list on a separator character (`str.split(sep)` for
a one-character separator). -/
def splitChars (sep : Char) : List Char → List (List Char)
  | [] => [[]]
  | c :: rest =>
    let r := splitChars sep rest
    if c = sep then [] :: r
    else
      match r with
      | [] => [[c]]
      | h :: t => (c :: h) :: t

/-- The decimal value of a digit string, `none` on a non-digit. -/
def digitsValGo : List Char → Nat → Option Nat
  | [], acc => some acc
  | c :: r, acc =>
    if '0' ≤ c ∧ c ≤ '9' then digitsValGo r (acc * 10 + (c.toNat - 48))
    else none

/-- Parse a non-empty digit string as a natural number. -/
def digitsToNat : List Char → Option Nat
  | [] => none
  | cs => digitsValGo cs 0

/-- Modelled from the spec: `lettersmith.date.to_datetime` (`date.py` is
not among the available sources).  Spec §4.2: it "accepts a timestamp
number, a date-time value, or a string, and normalizes it to one canonical
date-time representation"; a date-time value is already canonical and is
returned as-is.  For strings we parse the `YYYY-MM-DD` shape; the spec
leaves unparseable strings open (§9), and no claim under study evaluates
that branch — such strings fall back to `EPOCH` here. -/
def to_datetime : MVal → PyDate
  | .mdate d => d
  | .mstr s =>
    match splitChars '-' s.data with
    | [y, m, d] =>
      match digitsToNat y, digitsToNat m, digitsToNat d with
      | some a, some b, some c => ⟨a, b, c⟩
      | _, _, _ => EPOCH
    | _ => EPOCH

/-- Read a meta value back as the string-typed `title` field.  Python
stores the raw meta value without coercion; every claim under study only
exercises string-valued titles, on which this is exact. -/
def asStr : MVal → String
  | .mstr s => s
  | .mdate d => padNum 4 d.year ++ "-" ++ padNum 2 d.month ++ "-" ++ padNum 2 d.day

/-- `meta.get(key, default)`. -/
def metaGetD (m : List (String × MVal)) (k : String) (dflt : MVal) : MVal :=
  (assocFind m k).getD dflt

/-- The `doc(...)` constructor (doc.py lines 40–57): `str()` coercions are
the identity on the string fields modelled here, `to_datetime` is the
identity on date-time values, and omitted `meta` / `templates` default to
the empty mapping / the empty tuple. -/
def pydoc (id_path output_path : String) (input_path : Option String)
    (created modified : PyDate) (title content section_ : String)
    (meta : Option (List (String × MVal))) (templates : Option (List String)) :
    Doc :=
  { id_path := id_path,
    output_path := output_path,
    input_path := input_path,
    created := to_datetime (.mdate created),
    modified := to_datetime (.mdate modified),
    title := title,
    content := content,
    section_ := section_,
    meta := meta.getD [],
    templates := templates.getD [] }

/-- `from_stub(stub)` (doc.py lines 110–127): calls `doc(...)` passing
`id_path`, `output_path`, `input_path`, `created`, `modified`, `title`,
`section` and `meta` from the stub; `content` and `templates` are NOT
passed, so they take the constructor defaults (`""` and the empty tuple). -/
def from_stub (s : Stub) : Doc :=
  pydoc s.id_path s.output_path s.input_path s.created s.modified
    s.title "" s.section_ (some s.meta) none

/-- `uplift_meta(doc)` (doc.py lines 159–171): overwrite `title`,
`created`, `modified` from same-named `meta` entries when present,
passing `created`/`modified` through `to_datetime`. -/
def uplift_meta (d : Doc) : Doc :=
  { d with
    title := asStr (metaGetD d.meta "title" (.mstr d.title)),
    created := to_datetime (metaGetD d.meta "created" (.mdate d.created)),
    modified := to_datetime (metaGetD d.meta "modified" (.mdate d.modified)) }

/-- The message format of `annotates_exceptions` (doc.py lines 224–231):
`'Error encountered while mapping doc "{id_path}" with {module}.{func}.'`. -/
def annotMsg (id_path module funcQualname : String) : String :=
  "Error encountered while mapping doc \"" ++ id_path ++ "\" with "
    ++ module ++ "." ++ funcQualname ++ "."

/-- `annotates_exceptions(func)` (doc.py lines 214–233): run `func(doc)`;
re-raise any exception as a `DocException` whose message carries the doc's
`id_path` and `func.__module__`/`func.__qualname__` (passed here as the
two string arguments, since the embedding has no function introspection),
with the original exception as the chained cause. -/
def annotates_exceptions (module funcQualname : String)
    (f : Doc → Except PyErr Doc) : Doc → Except PyErr Doc :=
  fun d =>
    match f d with
    | .ok r => .ok r
    | .error e => .error (.docException (annotMsg d.id_path module funcQualname) e)

/-- Split a character list at its first colon. -/
def splitFirstColon : List Char → Option (List Char × List Char)
  | [] => none
  | c :: rest =>
    if c = ':' then some ([], rest)
    else
      match splitFirstColon rest with
      | some (k, v) => some (c :: k, v)
      | none => none

/-- Drop leading space characters. -/
def dropSpaces : List Char → List Char
  | ' ' :: r => dropSpaces r
  | l => l

/-- Drop surrounding space characters. -/
def trimChars (l : List Char) : List Char :=
  (dropSpaces (dropSpaces l.reverse).reverse)

/-- Modelled external interface: one line of `yaml.load` input, restricted
to the flat `key: value` string mappings the spec exercises (§1 excludes
the YAML library itself from the repository's scope): the key is the text
before the first colon, the value the text after it with leading spaces
dropped. -/
def yamlLine (l : List Char) : Except PyErr (String × MVal) :=
  match splitFirstColon l with
  | some (k, v) => .ok (⟨k⟩, .mstr ⟨dropSpaces v⟩)
  | none => .error .yamlError

/-- Modelled external interface: `yaml.load` for flat string mappings, one
`key: value` pair per non-empty line; anything else is a parse error. -/
def yamlLoad (s : String) : Except PyErr (List (String × MVal)) :=
  ((splitChars '\n' s.data).filter (fun l => l ≠ [])).mapM yamlLine

/-- Strip one layer of double quotes, the JSON string literal form. -/
def unquote (x : List Char) : Except PyErr String :=
  match x with
  | '"' :: rest =>
    if rest ≠ [] ∧ rest.getLast? = some '"' then .ok ⟨rest.dropLast⟩
    else .error .jsonError
  | _ => .error .jsonError

/-- Modelled external interface: one `"key": "value"` member of a flat
JSON object. -/
def jsonPair (p : List Char) : Except PyErr (String × MVal) :=
  match splitFirstColon (trimChars p) with
  | some (a, b) => do
    let k ← unquote (trimChars a)
    let v ← unquote (trimChars b)
    pure (k, .mstr v)
  | none => .error .jsonError

/-- Modelled external interface: `json.loads` for flat objects of string
values (§1 excludes the JSON library from the repository's scope). -/
def jsonLoads (s : String) : Except PyErr (List (String × MVal)) :=
  let t := trimChars s.data
  if t.head? = some braceL ∧ t.getLast? = some braceR then
    let inner := (t.drop 1).dropLast
    if trimChars inner = [] then .ok []
    else (splitChars ',' inner).mapM jsonPair
  else .error .jsonError

/-- The undecorated body of `parse_yaml` (doc.py lines 268–277): parse the
whole `content` as YAML into `meta` and blank `content`. -/
def parse_yaml_raw (d : Doc) : Except PyErr Doc :=
  match yamlLoad d.content with
  | .ok meta => .ok { d with meta := meta, content := "" }
  | .error e => .error e

/-- `parse_yaml` as exported by `doc.py`: the raw body wrapped by
`@annotates_exceptions` and then `@uplifts_meta` (doc.py lines 266–277),
so exceptions are annotated and `uplift_meta` runs on the result. -/
def parse_yaml (d : Doc) : Except PyErr Doc :=
  (annotates_exceptions "lettersmith.doc" "parse_yaml" parse_yaml_raw d).map
    uplift_meta

/-- The undecorated body of `parse_json` (doc.py lines 282–291). -/
def parse_json_raw (d : Doc) : Except PyErr Doc :=
  match jsonLoads d.content with
  | .ok meta => .ok { d with meta := meta, content := "" }
  | .error e => .error e

/-- `parse_json` as exported by `doc.py` (lines 280–291), wrapped the same
way as `parse_yaml`. -/
def parse_json (d : Doc) : Except PyErr Doc :=
  (annotates_exceptions "lettersmith.doc" "parse_json" parse_json_raw d).map
    uplift_meta

/-- `change_ext(doc, ext)` (doc.py lines 204–207):
`PurePath(doc.output_path).with_suffix(ext)` written back into
`output_path`, every other field untouched. -/
def change_ext (d : Doc) (ext : String) : Except PyErr Doc :=
  match withSuffixC d.output_path.data ext.data with
  | .ok cs => .ok { d with output_path := ⟨cs⟩ }
  | .error e => .error e

/-! ### MD5 (`hashlib.md5(...).hexdigest()` used by `_hashstr`)

A direct implementation of RFC 1321 over byte lists, with 32-bit words as
`Nat` reduced modulo `2 ^ 32`. -/

/-- UTF-8 encoding of one character (`str.encode()`). -/
def utf8Char (c : Char) : List Nat :=
  let n := c.toNat
  if n < 128 then [n]
  else if n < 2048 then [192 + n / 64, 128 + n % 64]
  else if n < 65536 then [224 + n / 4096, 128 + (n / 64) % 64, 128 + n % 64]
  else [240 + n / 262144, 128 + (n / 4096) % 64, 128 + (n / 64) % 64, 128 + n % 64]

/-- UTF-8 bytes of a string (`str.encode()`). -/
def strBytes (s : String) : List Nat := (s.data.map utf8Char).flatten

/-- Bitwise complement within 32 bits (operand already reduced). -/
def not32 (a : Nat) : Nat := 4294967295 - a % 4294967296

/-- Rotate a 32-bit word left by `r`. -/
def rotl32 (r a : Nat) : Nat :=
  let x := a % 4294967296
  ((x <<< r) ||| (x >>> (32 - r))) % 4294967296

/-- The MD5 sine-derived constant table `K`. -/
def md5K : List Nat := [
  3614090360, 3905402710, 606105819, 3250441966,
  4118548399, 1200080426, 2821735955, 4249261313,
  1770035416, 2336552879, 4294925233, 2304563134,
  1804603682, 4254626195, 2792965006, 1236535329,
  4129170786, 3225465664, 643717713, 3921069994,
  3593408605, 38016083, 3634488961, 3889429448,
  568446438, 3275163606, 4107603335, 1163531501,
  2850285829, 4243563512, 1735328473, 2368359562,
  4294588738, 2272392833, 1839030562, 4259657740,
  2763975236, 1272893353, 4139469664, 3200236656,
  681279174, 3936430074, 3572445317, 76029189,
  3654602809, 3873151461, 530742520, 3299628645,
  4096336452, 1126891415, 2878612391, 4237533241,
  1700485571, 2399980690, 4293915773, 2240044497,
  1873313359, 4264355552, 2734768916, 1309151649,
  4149444226, 3174756917, 718787259, 3951481745]

/-- The MD5 per-round shift table `s`. -/
def md5S : List Nat := [
  7, 12, 17, 22, 7, 12, 17, 22, 7, 12, 17, 22, 7, 12, 17, 22,
  5, 9, 14, 20, 5, 9, 14, 20, 5, 9, 14, 20, 5, 9, 14, 20,
  4, 11, 16, 23, 4, 11, 16, 23, 4, 11, 16, 23, 4, 11, 16, 23,
  6, 10, 15, 21, 6, 10, 15, 21, 6, 10, 15, 21, 6, 10, 15, 21]

/-- `count` little-endian bytes of `n`. -/
def leBytes : Nat → Nat → List Nat
  | _, 0 => []
  | n, k + 1 => (n % 256) :: leBytes (n / 256) k

/-- MD5 padding: append `0x80`, zero-fill to 56 mod 64, then the original
bit length as 8 little-endian bytes. -/
def md5Pad (msg : List Nat) : List Nat :=
  let len := msg.length
  let zeros := (56 + 64 - (len + 1) % 64) % 64
  msg ++ 128 :: List.replicate zeros 0 ++ leBytes ((len * 8) % 2 ^ 64) 8

/-- Split a byte list into 64-byte blocks (fuel-driven; the fuel
`l.length` bounds the number of blocks). -/
def chunksGo : Nat → List Nat → List (List Nat)
  | 0, _ => []
  | fuel + 1, l => if l = [] then [] else l.take 64 :: chunksGo fuel (l.drop 64)

/-- The 64-byte blocks of a padded message. -/
def md5Chunks (l : List Nat) : List (List Nat) := chunksGo l.length l

/-- The `g`-th little-endian 32-bit word of a 64-byte block. -/
def wordAt (block : List Nat) (g : Nat) : Nat :=
  block.getD (4 * g) 0 + 256 * block.getD (4 * g + 1) 0
    + 65536 * block.getD (4 * g + 2) 0 + 16777216 * block.getD (4 * g + 3) 0

/-- One of the 64 MD5 operations, transforming the `(a, b, c, d)` state. -/
def md5Step (block : List Nat) (st : Nat × Nat × Nat × Nat) (i : Nat) :
    Nat × Nat × Nat × Nat :=
  let a := st.1; let b := st.2.1; let c := st.2.2.1; let d := st.2.2.2
  let fg : Nat × Nat :=
    if i < 16 then ((b &&& c) ||| (not32 b &&& d), i)
    else if i < 32 then ((d &&& b) ||| (not32 d &&& c), (5 * i + 1) % 16)
    else if i < 48 then (b ^^^ c ^^^ d, (3 * i + 5) % 16)
    else (c ^^^ (b ||| not32 d), (7 * i) % 16)
  let f := (fg.1 + a + md5K.getD i 0 + wordAt block fg.2) % 4294967296
  (d, (b + rotl32 (md5S.getD i 0) f) % 4294967296, b, c)

/-- Process one 64-byte block into the running MD5 state. -/
def md5Block (st : Nat × Nat × Nat × Nat) (block : List Nat) :
    Nat × Nat × Nat × Nat :=
  let r := (List.range 64).foldl (md5Step block) st
  ((st.1 + r.1) % 4294967296, (st.2.1 + r.2.1) % 4294967296,
   (st.2.2.1 + r.2.2.1) % 4294967296, (st.2.2.2 + r.2.2.2) % 4294967296)

/-- A hexadecimal digit character (lowercase). -/
def hexDigit (n : Nat) : Char :=
  if n < 10 then Char.ofNat (48 + n) else Char.ofNat (87 + n)

/-- Two-character lowercase hex form of one byte. -/
def byteHex (b : Nat) : List Char := [hexDigit (b / 16), hexDigit (b % 16)]

/-- `hashlib.md5(bytes).hexdigest()`. -/
def md5hexBytes (msg : List Nat) : String :=
  let st := (md5Chunks (md5Pad msg)).foldl md5Block
    (1732584193, 4023233417, 2562383102, 271733878)
  let digest := leBytes st.1 4 ++ leBytes st.2.1 4
    ++ leBytes st.2.2.1 4 ++ leBytes st.2.2.2 4
  ⟨(digest.map byteHex).flatten⟩

/-- `_hashstr(s)` (doc.py lines 294–295):
`hashlib.md5(str(s).encode()).hexdigest()`. -/
def hashstr (s : String) : String := md5hexBytes (strBytes s)

/-- `_cache_path(id_path)` (doc.py lines 298–302):
`PurePath(_hashstr(id_path)).with_suffix('.pkl')`.  A 32-character hex
digest is a non-empty dot-free name, so `with_suffix` cannot raise; the
`error` arm is unreachable. -/
def cache_path_of (id_path : String) : String :=
  match withSuffixC (hashstr id_path).data ".pkl".data with
  | .ok cs => ⟨cs⟩
  | .error _ => ""

/-! ### `DocCache` / `DocCacheDir` (doc.py lines 305–377)

The cache directory's files are modelled as an association list from the
full file path to the stored Doc; `pickle.dump`/`pickle.load` round-trip a
namedtuple of plain data exactly, so a stored file is modelled by the Doc
value itself.  A new write is consed on and lookups take the newest entry,
which models `open(..., "wb")` overwriting. -/

/-- The files inside one cache directory. -/
def CacheFS : Type := List (String × Doc)

/-- `DocCache.dump(doc)` (doc.py lines 319–326): pickle the doc to
`PurePath(cache_path, _cache_path(doc.id_path))` and return the doc. -/
def cache_dump (fs : CacheFS) (cache_dir : String) (d : Doc) : CacheFS × Doc :=
  ((pyPathJoin cache_dir (cache_path_of d.id_path), d) :: fs, d)

/-- `DocCache.load(id_path)` (doc.py lines 328–334): open the file at
`PurePath(cache_path, _cache_path(id_path))` and unpickle it; a missing
file makes `open` raise `FileNotFoundError`. -/
def cache_load (fs : CacheFS) (cache_dir : String) (id_path : String) :
    Except PyErr Doc :=
  match assocFind fs (pyPathJoin cache_dir (cache_path_of id_path)) with
  | some d => .ok d
  | none => .error .fileNotFound

/-- `DocCache.dump_all(docs)` (doc.py lines 341–343): dump every doc. -/
def cache_dump_all (fs : CacheFS) (cache_dir : String) (docs : List Doc) :
    CacheFS :=
  docs.foldl (fun acc d => (cache_dump acc cache_dir d).1) fs

/-- `tempfile.TemporaryDirectory.__exit__` (external stdlib semantics):
deletes the temporary directory and everything in it, whatever the
exception arguments are. -/
def tempdirCleanup (_st : Option CacheFS) : Option CacheFS := none

/-- The `with DocCacheDir(docs) as cache: ...` scope (doc.py lines
351–377 plus Python's `with` statement semantics).  `__init__` makes a
fresh temporary directory named `tmp` and eagerly dumps `docs`;
`__enter__` hands the body the `DocCache`; the body runs to a value or an
exception, possibly changing the cache's files; `__exit__(*args)` runs on
both paths and delegates to `TemporaryDirectory.__exit__`, which deletes
the storage; since `__exit__` returns `None`, a body exception is
re-raised.  The result pairs the body's outcome with the state of the
backing storage after the scope (`none` = directory gone). -/
def with_doc_cache_dir {α : Type} (tmp : String) (docs : List Doc)
    (body : CacheFS → Except PyErr α × CacheFS) :
    Except PyErr α × Option CacheFS :=
  let init := cache_dump_all [] tmp docs
  let r := body init
  (r.1, tempdirCleanup (some r.2))

/-- A `cache.load` attempted after the scope: when the backing directory
is gone every load raises `FileNotFoundError`. -/
def load_after (st : Option CacheFS) (cache_dir id_path : String) :
    Except PyErr Doc :=
  match st with
  | none => .error .fileNotFound
  | some fs => cache_load fs cache_dir id_path

/-! ### `lettersmith/bin/site.py` fragments -/

/-- A configuration value: the nested-mapping shapes `site.py` reads. -/
inductive CVal where
  | vstr : String → CVal
  | vlist : List String → CVal
  | vmap : List (String × CVal) → CVal
  | vbool : Bool → CVal

/-- Modelled from the spec: `lettersmith.util.get_deep` (`util.py` is not
among the available sources).  Spec §4.1: "A deep-get helper walks a
sequence of keys through nested mappings, returning a default if any
segment is absent"; a non-mapping value has no entries, so any further
segment is absent and yields the default. -/
def get_deep (v : CVal) (ks : List String) (dflt : CVal) : CVal :=
  match ks with
  | [] => v
  | k :: rest =>
    match v with
    | .vmap m =>
      match assocFind m k with
      | some w => get_deep w rest dflt
      | none => dflt
    | _ => dflt

/-- `site.py` line 42: `taxonomies = get_deep(config, ("taxonomies",
"keys"), tuple())` — the taxonomy keys handed to
`taxonomy.index_by_taxonomy` at line 118. -/
def taxonomies_read (config : List (String × CVal)) : CVal :=
  get_deep (.vmap config) ["taxonomies", "keys"] (.vlist [])

/-- `site.py` lines 157–162, as they act on the config mapping:
`config.get("static_paths", [])` returns the very list object stored in
the config when the key is present (a fresh empty list otherwise);
`static_paths.append(PurePath(theme_path, "static"))` then mutates that
list in place, so the config mapping observes the appended entry (the
appended element is a `PurePath` object, modelled by its string form).
When the key is bound to a non-list, `.append` raises `AttributeError`
(not caught: the `except` clause only handles `CalledProcessError`).
Returns the config mapping as it stands after the step. -/
def static_copy_config_after (config : List (String × CVal))
    (theme_path : String) : Except PyErr (List (String × CVal)) :=
  match assocFind config "static_paths" with
  | some (.vlist l) =>
    .ok (assocSet config "static_paths"
      (.vlist (l ++ [pyPathJoin theme_path "static"])))
  | some _ => .error .attributeError
  | none => .ok config

/-! ### Concrete sample inputs used by the claim theorems -/

/-- The Doc of spec §8.4: section `"posts"`, `created` 2023-05-01, stem
`"hello"`. -/
def permalinkDoc : Doc :=
  { id_path := "posts/hello.md",
    output_path := "posts/hello/index.html",
    input_path := some "content/posts/hello.md",
    created := ⟨2023, 5, 1⟩,
    modified := ⟨2023, 5, 2⟩,
    title := "Hello",
    content := "",
    section_ := "posts",
    meta := [],
    templates := [] }

/-- `permalink_templates = {"posts": "{yyyy}/{stem}.html"}` of spec §8.4. -/
def permalinkTemplatesPosts : List (String × String) :=
  [("posts", tok "yyyy" ++ "/" ++ tok "stem" ++ ".html")]

/-- A configured template whose placeholder `slug` is not among the tokens
`read_doc_permalink` produces. -/
def permalinkTemplatesBadToken : List (String × String) :=
  [("posts", tok "slug")]

/-- A Doc whose entire content is the YAML document `title: Test`
(spec §8.2). -/
def yamlSampleDoc : Doc :=
  { id_path := "posts/a.yaml",
    output_path := "posts/a/index.html",
    input_path := some "content/posts/a.yaml",
    created := EPOCH,
    modified := EPOCH,
    title := "A",
    content := "title: Test",
    section_ := "posts",
    meta := [],
    templates := [] }

/-- What `parse_yaml` produces on `yamlSampleDoc`. -/
def yamlSampleParsed : Doc :=
  { yamlSampleDoc with
    meta := [("title", .mstr "Test")],
    content := "",
    title := "Test" }

/-- A second Doc with flat YAML content, used by the C4 witness. -/
def yamlWitnessDoc : Doc :=
  { yamlSampleDoc with id_path := "posts/b.yaml", content := "title: B" }

/-- A Stub carrying a non-empty `templates` sequence. -/
def stubSample : Stub :=
  { id_path := "posts/s.md",
    output_path := "posts/s/index.html",
    input_path := some "content/posts/s.md",
    created := ⟨2001, 2, 3⟩,
    modified := ⟨2001, 2, 4⟩,
    title := "S",
    section_ := "posts",
    meta := [("k", .mstr "v")],
    templates := ["post.html"] }

/-- A Doc used to exercise the exception-annotation wrapper. -/
def annotSampleDoc : Doc :=
  { permalinkDoc with id_path := "posts/bad.yaml" }

/-- A per-Doc transformation that always fails, for the C6 witness. -/
def alwaysFailing (_d : Doc) : Except PyErr Doc := .error .valueError

/-- A config whose top-level `taxonomies` key is bound to a flat list of
taxonomy keys, the shape claim C7 describes. -/
def configTaxList : List (String × CVal) := [("taxonomies", .vlist ["tags"])]

/-- A config whose `taxonomies` key is bound to a mapping with a `keys`
entry, the shape `site.py` actually reads. -/
def configTaxNested : List (String × CVal) :=
  [("taxonomies", .vmap [("keys", .vlist ["tags"])])]

/-- A config with a `static_paths` list present. -/
def configStatic : List (String × CVal) :=
  [("static_paths", .vlist ["assets"])]

/-- The same config as the static-copy step leaves it. -/
def configStaticAfter : List (String × CVal) :=
  [("static_paths", .vlist ["assets", "theme/static"])]

/-- A Doc whose `output_path` is not in `PurePath` normal form but does
end in the suffix `.md`. -/
def unnormalizedDoc : Doc :=
  { permalinkDoc with output_path := "a//b.md" }

/-- A Doc with a normalized `output_path` ending in `.md`, for the C9
witness. -/
def normalizedDoc : Doc :=
  { permalinkDoc with output_path := "posts/x.md" }

/-! ### Claim theorems -/

/-- Claim C1: the spec's permalink-templating property.  With
`permalink_templates = {"posts": "{yyyy}/{stem}.html"}` and the §8.4 Doc
(section `"posts"`, `created` 2023-05-01, stem `"hello"`), the claim says
`map_doc_permalink` returns the Doc with `output_path = "2023/hello.html"`.
The code instead raises `AttributeError`: `read_doc_permalink` evaluates
`doc.date` and `Doc` has no `date` field, and `AttributeError` is not the
`KeyError` the handler catches.  The second conjunct checks the half of
the claim the code does satisfy: a section absent from
`permalink_templates` hits the `KeyError` handler and the Doc comes back
unchanged. -/
theorem map_doc_permalink_date_attribute_bug :
    map_doc_permalink permalinkDoc permalinkTemplatesPosts =
      .error .attributeError ∧
    map_doc_permalink permalinkDoc [] = .ok permalinkDoc := by
  exact ⟨rfl, rfl⟩

/-- Claim C10: the claim says a configured template whose placeholder is
not among `read_doc_permalink`'s tokens is silently ignored (the Doc is
returned unchanged, the format step's `KeyError` being swallowed by the
same handler as the section lookup).  On the code as written the doc is
NOT returned unchanged: `read_doc_permalink` raises `AttributeError`
(`doc.date`) before `format` ever runs, and that exception propagates out
of `map_doc_permalink`. -/
theorem map_doc_permalink_missing_token_bug :
    map_doc_permalink permalinkDoc permalinkTemplatesBadToken =
      .error .attributeError := by
  exact rfl

/-- Claim C2: dumping a Doc and immediately loading its `id_path` from the
same cache returns the very same Doc (every field equal), whatever files
the cache already held; and `dump` itself returns the Doc unchanged. -/
theorem cache_dump_load_roundtrip (fs : CacheFS) (cache_dir : String)
    (d : Doc) :
    cache_load (cache_dump fs cache_dir d).1 cache_dir d.id_path = .ok d ∧
    (cache_dump fs cache_dir d).2 = d := by
  constructor
  · simp [cache_load, cache_dump, assocFind]
  · rfl

/-- Claim C3: whatever the body of a `with DocCacheDir(docs) as cache:`
scope does — return a value or raise — the temporary backing storage is
gone after the scope, and every subsequent load raises
`FileNotFoundError`. -/
theorem doc_cache_dir_teardown {α : Type} (tmp : String) (docs : List Doc)
    (body : CacheFS → Except PyErr α × CacheFS) :
    (with_doc_cache_dir tmp docs body).2 = none ∧
    ∀ cache_dir id_path,
      load_after (with_doc_cache_dir tmp docs body).2 cache_dir id_path =
        .error .fileNotFound := by
  exact ⟨rfl, fun _ _ => rfl⟩

/-- Claim C4: `parse_yaml` (resp. `parse_json`) parses the entire
`content` as YAML (resp. JSON), puts the result into `meta`, blanks
`content`, and applies `uplift_meta` to the result; concretely, parsing a
Doc whose whole content is `title: Test` yields
`meta = {"title": "Test"}`, `content = ""` and `title = "Test"`. -/
theorem parse_yaml_json_spec :
    (∀ (d : Doc) (m : List (String × MVal)), yamlLoad d.content = .ok m →
      parse_yaml d = .ok (uplift_meta { d with meta := m, content := "" })) ∧
    (∀ (d : Doc) (m : List (String × MVal)), jsonLoads d.content = .ok m →
      parse_json d = .ok (uplift_meta { d with meta := m, content := "" })) ∧
    (parse_yaml yamlSampleDoc = .ok yamlSampleParsed ∧
      yamlSampleParsed.meta = [("title", .mstr "Test")] ∧
      yamlSampleParsed.content = "" ∧ yamlSampleParsed.title = "Test") := by
  refine ⟨?_, ?_, ?_, rfl, rfl, rfl⟩
  · intro d m h
    simp [parse_yaml, annotates_exceptions, parse_yaml_raw, h, Except.map]
  · intro d m h
    simp [parse_json, annotates_exceptions, parse_json_raw, h, Except.map]
  · rfl

/-- Witness for C4: the general YAML clause applied to a concrete Doc
whose content is `title: B`. -/
theorem parse_yaml_json_spec_witness :
    parse_yaml yamlWitnessDoc =
      .ok (uplift_meta
        { yamlWitnessDoc with meta := [("title", MVal.mstr "B")], content := "" }) :=
  parse_yaml_json_spec.1 yamlWitnessDoc [("title", MVal.mstr "B")] rfl

/-- Counterexample to claim C5: a Stub carrying
`templates = ["post.html"]` does not reach the Doc — `from_stub` leaves
`templates` empty, because the `doc(...)` call inside it never passes
`templates`. -/
theorem from_stub_drops_templates :
    (from_stub stubSample).templates = [] ∧
    stubSample.templates = ["post.html"] ∧
    (from_stub stubSample).templates ≠ stubSample.templates := by
  exact ⟨rfl, rfl, by decide⟩

/-- Claim C5 as amended: `from_stub` yields a Doc with empty `content`
carrying `id_path`, `output_path`, `input_path`, `created`, `modified`,
`title`, `section` and `meta` from the Stub unchanged, while `templates`
is reset to the empty sequence rather than carried over. -/
theorem from_stub_amended (s : Stub) :
    from_stub s =
      { id_path := s.id_path, output_path := s.output_path,
        input_path := s.input_path, created := s.created,
        modified := s.modified, title := s.title, content := "",
        section_ := s.section_, meta := s.meta, templates := [] } := rfl

/-- Claim C6: a transformation wrapped by `annotates_exceptions` turns
any failure into a `DocException` whose message carries the doc's
`id_path` and the failing stage's `module.qualname`, with the original
exception as the chained cause; a success passes through unchanged. -/
theorem annotates_exceptions_spec (module fname : String)
    (f : Doc → Except PyErr Doc) (d : Doc) :
    (∀ e, f d = .error e →
      annotates_exceptions module fname f d =
        .error (.docException (annotMsg d.id_path module fname) e) ∧
      (∃ p q, (annotMsg d.id_path module fname).data =
        p ++ d.id_path.data ++ q) ∧
      (∃ u v, (annotMsg d.id_path module fname).data =
        u ++ (module.data ++ '.' :: fname.data) ++ v)) ∧
    (∀ r, f d = .ok r → annotates_exceptions module fname f d = .ok r) := by
  constructor
  · intro e h
    refine ⟨by simp [annotates_exceptions, h],
      ⟨"Error encountered while mapping doc \"".data,
       ("\" with " ++ module ++ "." ++ fname ++ ".").data, ?_⟩,
      ⟨("Error encountered while mapping doc \"" ++ d.id_path ++ "\" with ").data,
       ".".data, ?_⟩⟩
    · simp [annotMsg]
    · simp [annotMsg]
  · intro r h
    simp [annotates_exceptions, h]

/-- Witness for C6: the error clause at a concrete always-failing stage. -/
theorem annotates_exceptions_spec_witness :
    annotates_exceptions "lettersmith.doc" "parse_yaml" alwaysFailing
        annotSampleDoc =
      .error (.docException
        (annotMsg annotSampleDoc.id_path "lettersmith.doc" "parse_yaml")
        .valueError) ∧
    (∃ p q, (annotMsg annotSampleDoc.id_path "lettersmith.doc" "parse_yaml").data =
      p ++ annotSampleDoc.id_path.data ++ q) ∧
    (∃ u v, (annotMsg annotSampleDoc.id_path "lettersmith.doc" "parse_yaml").data =
      u ++ ("lettersmith.doc".data ++ '.' :: "parse_yaml".data) ++ v) :=
  (annotates_exceptions_spec "lettersmith.doc" "parse_yaml" alwaysFailing
    annotSampleDoc).1 .valueError rfl

/-- Counterexample to claim C7: binding the top-level config key
`taxonomies` to the list `["tags"]` does NOT make the orchestrator pass
`["tags"]` to the taxonomy indexer — `site.py` reads
`get_deep(config, ("taxonomies", "keys"), tuple())`, a list has no
`"keys"` entry, and the empty default is passed instead. -/
theorem taxonomies_flat_list_ignored :
    taxonomies_read configTaxList = .vlist [] ∧
    CVal.vlist [] ≠ CVal.vlist ["tags"] := by
  refine ⟨rfl, ?_⟩
  simp

/-- Claim C7 as amended: the orchestrator passes the value at
`config["taxonomies"]["keys"]` to the taxonomy indexer when `taxonomies`
is bound to a mapping carrying a `keys` entry; when `taxonomies` is
absent, or bound to a flat list (which has no `"keys"` entry), the empty
collection is passed. -/
theorem taxonomies_read_amended (config : List (String × CVal)) :
    (∀ m v, assocFind config "taxonomies" = some (.vmap m) →
      assocFind m "keys" = some v → taxonomies_read config = v) ∧
    (assocFind config "taxonomies" = none →
      taxonomies_read config = .vlist []) ∧
    (∀ l, assocFind config "taxonomies" = some (.vlist l) →
      taxonomies_read config = .vlist []) := by
  refine ⟨?_, ?_, ?_⟩
  · intro m v h1 h2
    simp [taxonomies_read, get_deep, h1, h2]
  · intro h
    simp [taxonomies_read, get_deep, h]
  · intro l h
    simp [taxonomies_read, get_deep, h]

/-- Witness for the amended C7: the nested shape is read through. -/
theorem taxonomies_read_amended_witness :
    taxonomies_read configTaxNested = .vlist ["tags"] :=
  (taxonomies_read_amended configTaxNested).1 [("keys", .vlist ["tags"])]
    (.vlist ["tags"]) rfl rfl

/-- Counterexample to claim C8: the config mapping is NOT immutable after
loading.  With `static_paths` present, the static-asset copy step
(`site.py` lines 157–162) appends `PurePath(theme_path, "static")` to the
very list object held by the config, so the config observed after the
step differs from the loaded one. -/
theorem static_copy_mutates_config :
    static_copy_config_after configStatic "theme" = .ok configStaticAfter ∧
    configStaticAfter ≠ configStatic := by
  refine ⟨rfl, ?_⟩
  simp [configStaticAfter, configStatic]

/-- Claim C8 as amended: every other access `site.py`'s orchestrator makes
to the config is a read (`config.get` / `get_deep`, lines 32–47, 131,
158), but the static-asset copy step mutates it: when `static_paths` is
present and bound to a list the step appends `theme_path/static` to that
list in place; only when the key is absent does the config mapping come
through the build unchanged. -/
theorem static_copy_amended (config : List (String × CVal))
    (theme_path : String) :
    (∀ l, assocFind config "static_paths" = some (.vlist l) →
      static_copy_config_after config theme_path =
        .ok (assocSet config "static_paths"
          (.vlist (l ++ [pyPathJoin theme_path "static"])))) ∧
    (assocFind config "static_paths" = none →
      static_copy_config_after config theme_path = .ok config) := by
  constructor
  · intro l h
    simp [static_copy_config_after, h]
  · intro h
    simp [static_copy_config_after, h]

/-- Witness for the amended C8: a config without `static_paths` is left
unchanged by the step. -/
theorem static_copy_amended_witness :
    static_copy_config_after configTaxList "theme" = .ok configTaxList :=
  (static_copy_amended configTaxList "theme").2 rfl

/-! ### Lemmas about the path model, used for claim C9 -/

/-- The last part of a parts list ending in `y` is `y`. -/
theorem lastPart_concat (xs : List (List Char)) (y : List Char) :
    lastPart (xs ++ [y]) = y := by
  induction xs with
  | nil => rfl
  | cons x t ih =>
    cases t with
    | nil => rfl
    | cons a b => exact ih

/-- Joining a parts list that ends in `y`. -/
theorem joinParts_concat (xs : List (List Char)) (y : List Char) :
    joinPartsC (xs ++ [y]) =
      joinPartsC xs ++ (if xs = [] then y else '/' :: y) := by
  induction xs with
  | nil => simp [joinPartsC]
  | cons x t ih =>
    cases t with
    | nil => simp [joinPartsC]
    | cons a b =>
      have ih2 : joinPartsC (a :: (b ++ [y])) = joinPartsC (a :: b) ++ '/' :: y := by
        rw [show a :: (b ++ [y]) = (a :: b) ++ [y] from rfl, ih]
        simp
      show x ++ '/' :: joinPartsC (a :: (b ++ [y])) =
        (x ++ '/' :: joinPartsC (a :: b)) ++ '/' :: y
      rw [ih2]
      simp

/-- `lastDotSplit` really is a split: the two pieces rebuild the name. -/
theorem lastDotSplit_append (n pre suf : List Char)
    (h : lastDotSplit n = some (pre, suf)) : n = pre ++ suf := by
  induction n generalizing pre suf with
  | nil => simp [lastDotSplit] at h
  | cons c rest ih =>
    cases hr : lastDotSplit rest with
    | some pq =>
      obtain ⟨p2, s2⟩ := pq
      simp [lastDotSplit, hr] at h
      obtain ⟨hpre, hsuf⟩ := h
      subst hpre
      subst hsuf
      have := ih p2 s2 hr
      simp [this]
    | none =>
      by_cases hc : c = '.'
      · simp [lastDotSplit, hr, hc] at h
        obtain ⟨hpre, hsuf⟩ := h
        subst hpre
        subst hsuf
        simp [hc]
      · simp [lastDotSplit, hr, hc] at h

/-- Unpack a non-empty `nameSuffixC`: the name splits at its last dot
into a non-empty stem and a suffix of length at least two, and
`nameSuffixC`/`nameStemC` return exactly those pieces. -/
theorem nameSuffix_decomp (n : List Char) (h : nameSuffixC n ≠ []) :
    ∃ pre suf, lastDotSplit n = some (pre, suf) ∧ pre ≠ [] ∧
      2 ≤ suf.length ∧ nameSuffixC n = suf ∧ nameStemC n = pre ∧
      n = pre ++ suf := by
  cases hd : lastDotSplit n with
  | none => exact absurd (by simp [nameSuffixC, hd]) h
  | some pq =>
    obtain ⟨pre, suf⟩ := pq
    by_cases hc : pre ≠ [] ∧ 2 ≤ suf.length
    · exact ⟨pre, suf, rfl, hc.1, hc.2, by simp [nameSuffixC, hd, hc],
        by simp [nameStemC, hd, hc], lastDotSplit_append n pre suf hd⟩
    · exact absurd (by simp [nameSuffixC, hd, hc]) h

/-- A path in `PurePath` normal form with at least one part is literally
its root followed by its joined parts. -/
theorem norm_decomp (p : List Char) (hne : pathPartsC p ≠ [])
    (hnorm : purePathStrC p = p) :
    p = pathRootC p ++ joinPartsC (pathPartsC p) := by
  have hcond : ¬(pathRootC p = [] ∧ pathPartsC p = []) := fun hh => hne hh.2
  calc p = purePathStrC p := hnorm.symm
    _ = pathRootC p ++ joinPartsC (pathPartsC p) := by
        simp [purePathStrC, hcond]

/-- Counterexample to claim C9: the claim quantifies over every Doc whose
`output_path` ends in a non-empty suffix and promises an output path
"identical to the original except that its suffix is replaced".  For the
non-normalized `output_path` `"a//b.md"` the code returns `"a/b.html"`
(`PurePath` collapses the doubled slash), while replacing the suffix of
the original string would give `"a//b.html"` — a different string. -/
theorem change_ext_counterexample :
    change_ext unnormalizedDoc ".html" =
      .ok { unnormalizedDoc with output_path := "a/b.html" } ∧
    "a//b".data ++ ".md".data = "a//b.md".data ∧
    "a//b".data ++ ".html".data ≠ "a/b.html".data := by
  refine ⟨rfl, rfl, by decide⟩

/-- Claim C9 as amended: for every Doc whose `output_path` is in
`PurePath` normal form and ends in a non-empty suffix,
`change_ext(doc, ".html")` succeeds (it is total on such Docs) and
returns the Doc with only `output_path` changed, the new path being the
original with its suffix replaced by `".html"`. -/
theorem change_ext_html_normalized (d : Doc)
    (hsuf : nameSuffixC (pathNameC d.output_path.data) ≠ [])
    (hnorm : purePathStr d.output_path = d.output_path) :
    ∃ pre,
      d.output_path.data = pre ++ nameSuffixC (pathNameC d.output_path.data) ∧
      change_ext d ".html" =
        .ok { d with output_path := ⟨pre ++ ".html".data⟩ } := by
  have hps : pathPartsC d.output_path.data ≠ [] := by
    intro h0
    apply hsuf
    simp [pathNameC, h0, lastPart, nameSuffixC, lastDotSplit]
  obtain h0 | ⟨xs, y, hxy⟩ := List.eq_nil_or_concat (pathPartsC d.output_path.data)
  · exact absurd h0 hps
  rw [List.concat_eq_append] at hxy
  have hname : pathNameC d.output_path.data = y := by
    rw [pathNameC, hxy, lastPart_concat]
  rw [hname] at hsuf
  obtain ⟨pre0, suf, _hsplit, hpre0, hlen, hsufeq, hstemeq, hysplit⟩ :=
    nameSuffix_decomp y hsuf
  have hnormC : purePathStrC d.output_path.data = d.output_path.data :=
    congrArg String.data hnorm
  have hdecomp := norm_decomp d.output_path.data hps hnormC
  have hyne : y ≠ [] := by
    rw [hysplit]
    cases pre0 with
    | nil => exact absurd rfl hpre0
    | cons _ _ => simp
  have hnne : pathNameC d.output_path.data ≠ [] := by rw [hname]; exact hyne
  have holdne : nameSuffixC (pathNameC d.output_path.data) ≠ [] := by
    rw [hname, hsufeq]
    intro hc
    rw [hc] at hlen
    simp at hlen
  have hws : withSuffixC d.output_path.data ".html".data =
      .ok (pathRootC d.output_path.data ++
        joinPartsC ((pathPartsC d.output_path.data).dropLast ++
          [nameStemC (pathNameC d.output_path.data) ++ ".html".data])) := by
    unfold withSuffixC
    rw [if_neg (by decide), if_neg (by decide), if_neg hnne]
    simp [holdne]
  have hdrop : (pathPartsC d.output_path.data).dropLast = xs := by
    rw [hxy, List.dropLast_concat]
  rw [hname, hstemeq] at hws
  rw [hdrop] at hws
  rw [hname, hsufeq]
  cases xs with
  | nil =>
    refine ⟨pathRootC d.output_path.data ++ pre0, ?_, ?_⟩
    · conv_lhs => rw [hdecomp]
      rw [hxy]
      simp [joinPartsC, hysplit]
    · have hcs : pathRootC d.output_path.data ++
          joinPartsC ([] ++ [pre0 ++ ".html".data]) =
          (pathRootC d.output_path.data ++ pre0) ++ ".html".data := by
        simp [joinPartsC]
      rw [hcs] at hws
      simp [change_ext, hws]
  | cons x t =>
    refine ⟨pathRootC d.output_path.data ++
      (joinPartsC (x :: t) ++ '/' :: pre0), ?_, ?_⟩
    · conv_lhs => rw [hdecomp]
      rw [hxy, joinParts_concat]
      simp [hysplit]
    · have hcs : pathRootC d.output_path.data ++
          joinPartsC ((x :: t) ++ [pre0 ++ ".html".data]) =
          (pathRootC d.output_path.data ++
            (joinPartsC (x :: t) ++ '/' :: pre0)) ++ ".html".data := by
        rw [joinParts_concat]
        simp
      rw [hcs] at hws
      simp [change_ext, hws]

/-- Witness for the amended C9: a concrete normalized Doc. -/
theorem change_ext_html_normalized_witness :
    ∃ pre,
      normalizedDoc.output_path.data =
        pre ++ nameSuffixC (pathNameC normalizedDoc.output_path.data) ∧
      change_ext normalizedDoc ".html" =
        .ok { normalizedDoc with output_path := ⟨pre ++ ".html".data⟩ } :=
  change_ext_html_normalized normalizedDoc (by decide) (by decide)

end Lettersmith
